import Mathlib

/-!
Shallow embedding of `samples/nrf9160/modem_shell/src/th/th_ctrl.c`:
the two-slot background job controller (slot admission, argument
duplication and release, result-buffer lifecycle, cooperative kill
signals).  Heap allocation is modelled explicitly so that the
ownership and unwind properties of the C code can be stated: every
`malloc`/`calloc`/`mosh_strdup` call consumes one "attempt tick" of an
allocation state, failure of a given attempt is driven by a `fails`
list, and live allocation identifiers are tracked in order.
-/

namespace ThCtrl

/-- The allocator model.  `fails.getD tick false` tells whether the
next allocation attempt fails (returns NULL); `live` lists the
identifiers of allocations not yet freed, in allocation order. -/
structure AllocState where
  fails : List Bool
  tick : Nat
  live : List Nat
  deriving DecidableEq, Repr

/-- One `malloc`/`calloc`/`mosh_strdup` attempt: consumes a tick and,
if the attempt does not fail, returns a fresh identifier and records
it live. -/
def alloc (st : AllocState) : Option Nat × AllocState :=
  if st.fails.getD st.tick false then
    (none, { st with tick := st.tick + 1 })
  else
    (some st.tick, { st with tick := st.tick + 1, live := st.live ++ [st.tick] })

/-- Models `free(p)`: the identifier stops being live. -/
def dealloc (id : Nat) (st : AllocState) : AllocState :=
  { st with live := st.live.erase id }

/-- An owned duplicated argument vector: the container allocation id
and, per element, its allocation id and string contents. -/
abbrev ArgVec := Nat × List (Nat × String)

/-- The element-duplication loop of `th_ctrl_util_duplicate_argv`
(the `for` loop over `mosh_strdup`): duplicates each string in order;
on the first failing duplication it frees the container `ptr_array`
(and only the container — strings already duplicated stay live) and
reports failure. -/
def dupElems (container : Nat) (st : AllocState) :
    List String → Option (List (Nat × String)) × AllocState
  | [] => (some [], st)
  | s :: rest =>
    match alloc st with
    | (none, st1) => (none, dealloc container st1)
    | (some id, st1) =>
      match dupElems container st1 rest with
      | (none, st2) => (none, st2)
      | (some elems, st2) => (some ((id, s) :: elems), st2)

/-- Embeds `th_ctrl_util_duplicate_argv(argc, argv)`: `malloc` the pointer
array, then duplicate every element with `mosh_strdup`; `NULL` if the
container allocation or any duplication fails. -/
def th_ctrl_util_duplicate_argv (st : AllocState) (argv : List String) :
    Option ArgVec × AllocState :=
  match alloc st with
  | (none, st1) => (none, st1)
  | (some container, st1) =>
    match dupElems container st1 argv with
    | (none, st2) => (none, st2)
    | (some elems, st2) => (some (container, elems), st2)

/-- Embeds `th_ctrl_util_duplicate_argv_free(argc, argv)`: frees `argv[i]`
for `i = 1 .. argc-1` (the loop starts at index 1, so index 0 is
never freed), then frees the container. -/
def th_ctrl_util_duplicate_argv_free (argc : Nat) (v : ArgVec) (st : AllocState) :
    AllocState :=
  dealloc v.1 (((v.2.take argc).drop 1).foldl (fun s e => dealloc e.1 s) st)

/-- The configured buffer capacity `TH_RESPONSE_BUFFER_SIZE`. -/
def TH_RESPONSE_BUFFER_SIZE : Nat := 10240

/-- Per-slot state `struct th_ctrl_data`.  The result buffer is the
allocation id plus its current C-string contents (`""` right after
`calloc`/`memset`); `argv`/`argc` are the duplicated vector and the
stored count; `kill_signal` is `some v` once `k_poll_signal_raise`
ran with value `v`; `work_pending` models `k_work_is_pending`. -/
structure ThCtrlData where
  results_str : Option (Nat × String)
  argv : Option ArgVec
  argc : Nat
  cmd_len : Nat
  th_nbr : Nat
  background : Bool
  kill_signal : Option Int
  work_pending : Bool
  deriving DecidableEq, Repr

/-- The strings held by a slot's duplicated vector (empty when the
`argv` pointer is NULL). -/
def argvStrings (d : ThCtrlData) : List String :=
  match d.argv with
  | none => []
  | some v => v.2.map (fun e => e.2)

/-- The loop of `th_ctrl_get_command_str_from_argv`: append
`argv[i]` plus one space while the argument still fits
(`total_len + arg_len > out_buf_len` breaks the loop); `buf` is the
output buffer contents built so far, whose length is `total_len`. -/
def getCmdGo (out_buf_len : Nat) : List String → String → String
  | [], buf => buf
  | s :: rest, buf =>
    if buf.length + s.length > out_buf_len then buf
    else getCmdGo out_buf_len rest (buf ++ s ++ " ")

/-- Embeds `th_ctrl_get_command_str_from_argv(argc, argv, out_buf,
out_buf_len)`: joins the first `argc` arguments, each followed by one
space, into an initially empty buffer, stopping at the first argument
that does not pass the length check. -/
def th_ctrl_get_command_str_from_argv (argc : Nat) (argv : List String)
    (out_buf_len : Nat) : String :=
  getCmdGo out_buf_len (argv.take argc) ""

/-- Outcome of `th_ctrl_data_start`: submitted to the work queue, or
one of its two `shell_error` early returns. -/
inductive StartOutcome where
  | ok
  | oomBuffer
  | oomArgs
  deriving DecidableEq, Repr

/-- Second half of `th_ctrl_data_start`, from the `assert(argc > 1)`
on: free any previous duplicated vector, set `data->argc = argc - 1`,
duplicate `&argv[1]`; on duplication failure report `oomArgs` with
`data->argv` left NULL; on success record mode and `cmd_len` and
submit the work item to the slot's queue. -/
def startRest (st : AllocState) (d : ThCtrlData) (cmdLen : Nat)
    (argvIn : List String) (is_background : Bool) :
    StartOutcome × ThCtrlData × AllocState :=
  let st :=
    match d.argv with
    | some v => th_ctrl_util_duplicate_argv_free d.argc v st
    | none => st
  let d := { d with argc := argvIn.length - 1 }
  match th_ctrl_util_duplicate_argv st (argvIn.drop 1) with
  | (none, st1) => (StartOutcome.oomArgs, { d with argv := none }, st1)
  | (some v, st1) =>
    (StartOutcome.ok,
     { d with argv := some v, background := is_background, cmd_len := cmdLen,
              work_pending := true }, st1)

/-- Embeds `th_ctrl_data_start(data, shell, argc, argv, is_background)`,
mirrored statement by statement: free the result buffer when going
foreground; for background `calloc` a fresh buffer if none exists
(`oomBuffer` early return on failure) or `memset` an existing one to
zero; then `startRest`. -/
def th_ctrl_data_start (st : AllocState) (d : ThCtrlData) (cmdLen : Nat)
    (argvIn : List String) (is_background : Bool) :
    StartOutcome × ThCtrlData × AllocState :=
  let (d, st) :=
    match d.results_str with
    | some (id, _) =>
      if ¬is_background then ({ d with results_str := none }, dealloc id st)
      else (d, st)
    | none => (d, st)
  if is_background ∧ d.results_str = none then
    match alloc st with
    | (none, st1) => (StartOutcome.oomBuffer, d, st1)
    | (some id, st1) =>
      startRest st1 { d with results_str := some (id, "") } cmdLen argvIn
        is_background
  else
    let d :=
      match d.results_str with
      | some (id, _) => { d with results_str := some (id, "") }
      | none => d
    startRest st d cmdLen argvIn is_background

/-- Outcome of `th_ctrl_start`: the unsupported-command error, a
`th_ctrl_data_start` attempt on the named slot (1 or 2) with its
outcome, or the all-busy error. -/
inductive CtrlOutcome where
  | unsupported
  | started (slot : Nat) (r : StartOutcome)
  | allBusy
  deriving DecidableEq, Repr

/-- Embeds `th_ctrl_start(shell, argc, argv, is_background)`: rejects any
`argv[1]` other than `"iperf3"`, then tries slot 1 if its work is not
pending, else slot 2, else reports that all workers are busy.  The C
code reads `argv[1]` unconditionally, so a caller vector with fewer
than two elements is outside the function's domain (`none`). -/
def th_ctrl_start (st : AllocState) (d1 d2 : ThCtrlData) (cmdLen : Nat)
    (argvIn : List String) (is_background : Bool) :
    Option (CtrlOutcome × ThCtrlData × ThCtrlData × AllocState) :=
  if argvIn.length < 2 then none
  else if argvIn.getD 1 "" ≠ "iperf3" then some (CtrlOutcome.unsupported, d1, d2, st)
  else if ¬d1.work_pending then
    let (r, d1', st') := th_ctrl_data_start st d1 cmdLen argvIn is_background
    some (CtrlOutcome.started 1 r, d1', d2, st')
  else if ¬d2.work_pending then
    let (r, d2', st') := th_ctrl_data_start st d2 cmdLen argvIn is_background
    some (CtrlOutcome.started 2 r, d1, d2', st')
  else some (CtrlOutcome.allBusy, d1, d2, st)

/-- Models `k_poll_signal_raise(&data->kill_signal, v)`. -/
def raiseSignal (d : ThCtrlData) (v : Int) : ThCtrlData :=
  { d with kill_signal := some v }

/-- Embeds `th_ctrl_kill_em_all()`: for each of the two slots, raise its
kill signal (with value 1 resp. 2) only if that slot's work is
pending. -/
def th_ctrl_kill_em_all (d1 d2 : ThCtrlData) : ThCtrlData × ThCtrlData :=
  (if d1.work_pending then raiseSignal d1 1 else d1,
   if d2.work_pending then raiseSignal d2 2 else d2)

/-- Embeds `th_ctrl_kill(shell, nbr)`: for `nbr` 1 or 2, raise that slot's
signal with value `nbr` if its work is pending, otherwise print
"Thread #nbr not running" (returned as `some nbr`); any other `nbr`
does nothing. -/
def th_ctrl_kill (nbr : Nat) (d1 d2 : ThCtrlData) :
    Option Nat × ThCtrlData × ThCtrlData :=
  if nbr = 1 then
    if d1.work_pending then (none, raiseSignal d1 1, d2)
    else (some 1, d1, d2)
  else if nbr = 2 then
    if d2.work_pending then (none, d1, raiseSignal d2 2)
    else (some 2, d1, d2)
  else (none, d1, d2)

/-- What `th_ctrl_data_result_print` prints: either the
"No results for thread #n" notice, or the buffered text together with
whether the deletion notice was printed. -/
inductive ResultOutcome where
  | noResults
  | results (text : String) (deleted : Bool)
  deriving DecidableEq, Repr

/-- Embeds `th_ctrl_data_result_print(shell, data)`: nothing to print when
the buffer pointer is NULL or the buffered string is empty; otherwise
print the text and, when the work is no longer pending, free the
buffer, free the duplicated vector, and reset `argc`/`argv`. -/
def th_ctrl_data_result_print (st : AllocState) (d : ThCtrlData) :
    ResultOutcome × ThCtrlData × AllocState :=
  match d.results_str with
  | none => (ResultOutcome.noResults, d, st)
  | some (id, s) =>
    if s = "" then (ResultOutcome.noResults, d, st)
    else if ¬d.work_pending then
      let st := dealloc id st
      let st :=
        match d.argv with
        | some v => th_ctrl_util_duplicate_argv_free d.argc v st
        | none => st
      (ResultOutcome.results s true,
       { d with results_str := none, argc := 0, argv := none }, st)
    else (ResultOutcome.results s false, d, st)

/-- What `th_ctrl_data_status_print` prints about one slot: either
"Nothing", or that results are available plus the running flag and
the reconstructed command line. -/
inductive StatusOutcome where
  | nothing
  | available (running : Bool) (cmd : String)
  deriving DecidableEq, Repr

/-- Embeds `th_ctrl_data_status_print(shell, data)`: only when the result
buffer exists and its string is non-empty does it report the running
state and the command line rebuilt from the stored vector into a
`calloc(cmd_len + 1)` buffer; otherwise it prints "Nothing". -/
def th_ctrl_data_status_print (d : ThCtrlData) : StatusOutcome :=
  match d.results_str with
  | none => StatusOutcome.nothing
  | some (_, s) =>
    if s = "" then StatusOutcome.nothing
    else
      StatusOutcome.available d.work_pending
        (th_ctrl_get_command_str_from_argv d.argc (argvStrings d) (d.cmd_len + 1))

/-- Embeds `th_ctrl_status_print(shell)`: prints slot 1's status then slot
2's, unconditionally. -/
def th_ctrl_status_print (d1 d2 : ThCtrlData) : StatusOutcome × StatusOutcome :=
  (th_ctrl_data_status_print d1, th_ctrl_data_status_print d2)

/-- The job body (external `iperf_main`) writing its output into the
slot's result buffer; external collaborator, modelled as replacing
the buffer contents. -/
def writeResults (d : ThCtrlData) (s : String) : ThCtrlData :=
  match d.results_str with
  | none => d
  | some (id, _) => { d with results_str := some (id, s) }

/-- A freshly initialized slot (`th_ctrl_init`): no buffer, no
vector, signal unset, work not pending. -/
def idleSlot (n : Nat) : ThCtrlData :=
  ⟨none, none, 0, 0, n, false, none, false⟩

/-- A slot whose work is pending (job mid-run) and that has produced
no output yet (foreground: no result buffer). -/
def runningSlotNoResults (n : Nat) : ThCtrlData :=
  ⟨none, none, 0, 0, n, false, none, true⟩

/-- A slot whose background job finished (work no longer pending)
leaving `"done"` in the buffer (allocation 0) and holding its
duplicated vector (container 1, one element, allocation 2). -/
def finishedSlot : ThCtrlData :=
  ⟨some (0, "done"), some (1, [(2, "iperf3")]), 1, 20, 1, true, none, false⟩

/-- A slot like `finishedSlot` but still mid-run with `"x"` written
so far. -/
def runningWithResults : ThCtrlData :=
  ⟨some (0, "x"), some (1, [(2, "iperf3")]), 1, 20, 1, true, none, true⟩

/-- Specification-level join: each argument followed by one space,
concatenated in order (so the result is the arguments joined by
single spaces plus one trailing space). -/
def joinSpaced : List String → String
  | [] => ""
  | s :: rest => s ++ " " ++ joinSpaced rest

/-! ### Support lemmas -/

theorem fails_dealloc (id : Nat) (st : AllocState) : (dealloc id st).fails = st.fails :=
  rfl

theorem fails_foldl_dealloc (l : List (Nat × String)) (st : AllocState) :
    (l.foldl (fun s e => dealloc e.1 s) st).fails = st.fails := by
  induction l generalizing st with
  | nil => rfl
  | cons e rest ih => simpa using ih (dealloc e.1 st)

theorem fails_duplicate_argv_free (argc : Nat) (v : ArgVec) (st : AllocState) :
    (th_ctrl_util_duplicate_argv_free argc v st).fails = st.fails := by
  simp [th_ctrl_util_duplicate_argv_free, fails_dealloc, fails_foldl_dealloc]

theorem alloc_of_fails_nil (st : AllocState) (h : st.fails = []) :
    alloc st = (some st.tick, { st with tick := st.tick + 1, live := st.live ++ [st.tick] }) := by
  simp [alloc, h]

theorem dupElems_of_fails_nil (args : List String) :
    ∀ (st : AllocState) (c : Nat), st.fails = [] →
      ∃ elems st', dupElems c st args = (some elems, st') ∧
        elems.map Prod.snd = args ∧ st'.fails = [] := by
  induction args with
  | nil => exact fun st c h => ⟨[], st, rfl, rfl, h⟩
  | cons s rest ih =>
    intro st c h
    obtain ⟨elems, st2, heq, hmap, hf⟩ :=
      ih { st with tick := st.tick + 1, live := st.live ++ [st.tick] } c (by simpa using h)
    exact ⟨(st.tick, s) :: elems, st2,
      by simp [dupElems, alloc_of_fails_nil st h, heq], by simp [hmap], hf⟩

theorem duplicate_argv_of_fails_nil (st : AllocState) (args : List String)
    (h : st.fails = []) :
    ∃ v st', th_ctrl_util_duplicate_argv st args = (some v, st') ∧
      v.2.map Prod.snd = args ∧ st'.fails = [] := by
  obtain ⟨elems, st2, heq, hmap, hf⟩ :=
    dupElems_of_fails_nil args { st with tick := st.tick + 1, live := st.live ++ [st.tick] }
      st.tick (by simpa using h)
  exact ⟨(st.tick, elems), st2,
    by simp [th_ctrl_util_duplicate_argv, alloc_of_fails_nil st h, heq], hmap, hf⟩

theorem startRest_of_fails_nil (st : AllocState) (d : ThCtrlData) (cmdLen : Nat)
    (argvIn : List String) (bg : Bool) (h : st.fails = []) :
    ∃ v st', startRest st d cmdLen argvIn bg =
      (StartOutcome.ok,
       { d with argc := argvIn.length - 1, argv := some v, background := bg,
                cmd_len := cmdLen, work_pending := true }, st') ∧
      v.2.map Prod.snd = argvIn.drop 1 ∧ st'.fails = [] := by
  have hfree : (match d.argv with
      | some v => th_ctrl_util_duplicate_argv_free d.argc v st
      | none => st).fails = [] := by
    cases d.argv <;> simp [fails_duplicate_argv_free, h]
  obtain ⟨v, st', heq, hmap, hf⟩ :=
    duplicate_argv_of_fails_nil _ (argvIn.drop 1) hfree
  refine ⟨v, st', ?_, hmap, hf⟩
  simp only [startRest]
  rw [heq]

theorem data_start_of_fails_nil (st : AllocState) (d : ThCtrlData) (cmdLen : Nat)
    (argvIn : List String) (bg : Bool) (h : st.fails = []) :
    ∃ d' st', th_ctrl_data_start st d cmdLen argvIn bg = (StartOutcome.ok, d', st') ∧
      d'.argc = argvIn.length - 1 ∧ argvStrings d' = argvIn.drop 1 ∧
      d'.background = bg ∧ d'.cmd_len = cmdLen ∧ d'.work_pending = true ∧
      d'.kill_signal = d.kill_signal ∧ d'.th_nbr = d.th_nbr ∧ st'.fails = [] ∧
      (bg = true → ∃ idb, d'.results_str = some (idb, "")) ∧
      (bg = false → d'.results_str = none) := by
  cases bg with
  | false =>
    cases hr : d.results_str with
    | none =>
      obtain ⟨v, st', heq, hmap, hf⟩ := startRest_of_fails_nil st d cmdLen argvIn false h
      refine ⟨{ d with argc := argvIn.length - 1, argv := some v, background := false, cmd_len := cmdLen, work_pending := true }, st',
        by simp [th_ctrl_data_start, hr, heq], by simp, by simpa [argvStrings] using hmap,
        by simp, by simp, by simp, by simp, by simp, hf, by simp, fun _ => by simp [hr]⟩
    | some p =>
      obtain ⟨id, s⟩ := p
      obtain ⟨v, st', heq, hmap, hf⟩ :=
        startRest_of_fails_nil (dealloc id st) { d with results_str := none } cmdLen argvIn
          false (by simpa using h)
      refine ⟨{ d with results_str := none, argc := argvIn.length - 1, argv := some v, background := false, cmd_len := cmdLen, work_pending := true }, st',
        by simp [th_ctrl_data_start, hr, heq], by simp, by simpa [argvStrings] using hmap,
        by simp, by simp, by simp, by simp, by simp, hf, by simp, fun _ => by simp⟩
  | true =>
    cases hr : d.results_str with
    | none =>
      obtain ⟨v, st', heq, hmap, hf⟩ :=
        startRest_of_fails_nil { st with tick := st.tick + 1, live := st.live ++ [st.tick] }
          { d with results_str := some (st.tick, "") } cmdLen argvIn true (by simpa using h)
      refine ⟨{ d with results_str := some (st.tick, ""), argc := argvIn.length - 1, argv := some v, background := true, cmd_len := cmdLen, work_pending := true },
        st', by simp [th_ctrl_data_start, hr, alloc_of_fails_nil st h, heq], by simp,
        by simpa [argvStrings] using hmap, by simp, by simp, by simp, by simp, by simp,
        hf, fun _ => ⟨st.tick, by simp⟩, by simp⟩
    | some p =>
      obtain ⟨id, s⟩ := p
      obtain ⟨v, st', heq, hmap, hf⟩ :=
        startRest_of_fails_nil st { d with results_str := some (id, "") } cmdLen argvIn true h
      refine ⟨{ d with results_str := some (id, ""), argc := argvIn.length - 1, argv := some v, background := true, cmd_len := cmdLen, work_pending := true },
        st', by simp [th_ctrl_data_start, hr, heq], by simp,
        by simpa [argvStrings] using hmap, by simp, by simp, by simp, by simp, by simp,
        hf, fun _ => ⟨id, by simp⟩, by simp⟩

/-! ### Claim theorems -/

/-- C2, failing input: duplicating the two-element vector
`["a", "b"]` when the third allocation (the `mosh_strdup` of `"b"`)
fails reports failure, but the duplicate of `"a"` (allocation id 1)
is still live afterwards: `th_ctrl_util_duplicate_argv` frees only
the container on its failure path, so not every allocation made so
far is released, contradicting the stated contract. -/
theorem duplicate_argv_failure_leaks :
    th_ctrl_util_duplicate_argv ⟨[false, false, true], 0, []⟩ ["a", "b"]
      = (none, ⟨[false, false, true], 3, [1]⟩) ∧
    (th_ctrl_util_duplicate_argv ⟨[false, false, true], 0, []⟩ ["a", "b"]).2.live ≠ [] := by
  exact ⟨rfl, by decide⟩

/-- C3, failing input: after a successful duplication of
`["a", "b"]` (container id 0, elements ids 1 and 2),
`th_ctrl_util_duplicate_argv_free` leaves allocation id 1 — the
duplicate of element 0 — live: its loop starts at index 1, so the
first element is never deallocated, contradicting "no element is
skipped". -/
theorem duplicate_argv_free_leaks_first :
    th_ctrl_util_duplicate_argv ⟨[], 0, []⟩ ["a", "b"]
      = (some (0, [(1, "a"), (2, "b")]), ⟨[], 3, [0, 1, 2]⟩) ∧
    (th_ctrl_util_duplicate_argv_free 2 (0, [(1, "a"), (2, "b")]) ⟨[], 3, [0, 1, 2]⟩).live
      = [1] := by
  exact ⟨rfl, rfl⟩

/-- C4, counterexample: with slot 1 Idle (work not pending, signal
unset) and slot 2 Running, `th_ctrl_kill_em_all` leaves slot 1's
kill signal unset — it raises a slot's signal only when that slot's
work is pending, not unconditionally as claimed. -/
theorem kill_em_all_skips_idle :
    (th_ctrl_kill_em_all (idleSlot 1) (runningSlotNoResults 2)).1.kill_signal = none ∧
    (idleSlot 1).work_pending = false := by
  exact ⟨rfl, rfl⟩

/-- C4, amended: `th_ctrl_kill_em_all` raises the Cancellation
Signal (with the slot id as value) of exactly those slots whose work
is pending; a slot that is not running is left entirely unchanged —
its signal is not raised — and no NotRunning outcome is reported for
it. -/
theorem kill_em_all_only_pending (d1 d2 : ThCtrlData) :
    (d1.work_pending = true → (th_ctrl_kill_em_all d1 d2).1.kill_signal = some 1) ∧
    (d1.work_pending = false → (th_ctrl_kill_em_all d1 d2).1 = d1) ∧
    (d2.work_pending = true → (th_ctrl_kill_em_all d1 d2).2.kill_signal = some 2) ∧
    (d2.work_pending = false → (th_ctrl_kill_em_all d1 d2).2 = d2) := by
  refine ⟨fun h => ?_, fun h => ?_, fun h => ?_, fun h => ?_⟩ <;>
    simp [th_ctrl_kill_em_all, h, raiseSignal]

/-- C4 witness for `kill_em_all_only_pending`. -/
theorem kill_em_all_only_pending_witness :
    (th_ctrl_kill_em_all (runningSlotNoResults 1) (idleSlot 2)).1.kill_signal = some 1 ∧
    (th_ctrl_kill_em_all (runningSlotNoResults 1) (idleSlot 2)).2 = idleSlot 2 := by
  exact ⟨(kill_em_all_only_pending (runningSlotNoResults 1) (idleSlot 2)).1 rfl,
    (kill_em_all_only_pending (runningSlotNoResults 1) (idleSlot 2)).2.2.2 rfl⟩

/-- C9: `th_ctrl_kill` on a slot whose work is not pending prints
the "Thread #n not running" notice and mutates neither slot;
on a slot whose work is pending it raises exactly that slot's
Cancellation Signal with the slot id (1 or 2) as the value, changing
no other field of either slot. -/
theorem kill_behavior (d1 d2 : ThCtrlData) :
    (d1.work_pending = false → th_ctrl_kill 1 d1 d2 = (some 1, d1, d2)) ∧
    (d1.work_pending = true →
      th_ctrl_kill 1 d1 d2 = (none, { d1 with kill_signal := some 1 }, d2)) ∧
    (d2.work_pending = false → th_ctrl_kill 2 d1 d2 = (some 2, d1, d2)) ∧
    (d2.work_pending = true →
      th_ctrl_kill 2 d1 d2 = (none, d1, { d2 with kill_signal := some 2 })) := by
  refine ⟨fun h => ?_, fun h => ?_, fun h => ?_, fun h => ?_⟩ <;>
    simp [th_ctrl_kill, h, raiseSignal]

/-- C9 witness for `kill_behavior`. -/
theorem kill_behavior_witness :
    th_ctrl_kill 2 (runningSlotNoResults 1) (idleSlot 2)
      = (some 2, runningSlotNoResults 1, idleSlot 2) ∧
    th_ctrl_kill 1 (runningSlotNoResults 1) (idleSlot 2)
      = (none, { runningSlotNoResults 1 with kill_signal := some 1 }, idleSlot 2) := by
  exact ⟨(kill_behavior (runningSlotNoResults 1) (idleSlot 2)).2.2.1 rfl,
    (kill_behavior (runningSlotNoResults 1) (idleSlot 2)).2.1 rfl⟩

theorem startRest_oomArgs (st : AllocState) (d : ThCtrlData) (cmdLen : Nat)
    (argvIn : List String) (bg : Bool) (d' : ThCtrlData) (st' : AllocState)
    (h : startRest st d cmdLen argvIn bg = (StartOutcome.oomArgs, d', st')) :
    d' = { d with argc := argvIn.length - 1, argv := none } := by
  unfold startRest at h
  split at h <;> dsimp only at h <;> split at h <;>
    first
      | (simp only [Prod.mk.injEq] at h; exact h.2.1.symm)
      | simp at h

/-- C1, counterexample: a background start on a fresh Idle slot whose
buffer `calloc` succeeds but whose argument duplication fails returns
the OutOfMemory outcome `oomArgs`, yet the slot is not left
unchanged (its `argc` became 1 and it now holds a Result Buffer) and
the buffer allocated during the attempt (id 0) is still live, not
released. -/
theorem data_start_oom_not_unwound :
    th_ctrl_data_start ⟨[false, false, true], 0, []⟩ (idleSlot 1) 7 ["th", "iperf3"] true
      = (StartOutcome.oomArgs, ⟨some (0, ""), none, 1, 0, 1, false, none, false⟩,
         ⟨[false, false, true], 3, [0]⟩) ∧
    (th_ctrl_data_start ⟨[false, false, true], 0, []⟩ (idleSlot 1) 7 ["th", "iperf3"]
        true).2.1 ≠ idleSlot 1 ∧
    (th_ctrl_data_start ⟨[false, false, true], 0, []⟩ (idleSlot 1) 7 ["th", "iperf3"]
        true).2.2.live ≠ [] := by
  refine ⟨rfl, ?_, ?_⟩ <;> decide

/-- C1, amended: when the Result-Buffer allocation fails during a
background start with no pre-existing buffer, `th_ctrl_data_start`
returns OutOfMemory with the slot completely unchanged and nothing
left allocated.  When the Argument-Vector duplication fails, it
returns OutOfMemory and the slot stays Idle (work not submitted) with
mode, `cmd_len`, kill signal and id untouched, but the slot is not
restored: `argv` ends up empty (a previous vector having been freed),
`argc` is set to n − 1, and a Result Buffer allocated or zeroed
during the attempt is retained rather than released. -/
theorem data_start_oom_behavior (st : AllocState) (d : ThCtrlData) (cmdLen : Nat)
    (argvIn : List String) (bg : Bool) :
    (bg = true → d.results_str = none → st.fails.getD st.tick false = true →
      th_ctrl_data_start st d cmdLen argvIn bg
        = (StartOutcome.oomBuffer, d, { st with tick := st.tick + 1 })) ∧
    (∀ d' st', th_ctrl_data_start st d cmdLen argvIn bg = (StartOutcome.oomArgs, d', st') →
      d'.work_pending = d.work_pending ∧ d'.background = d.background ∧
      d'.cmd_len = d.cmd_len ∧ d'.kill_signal = d.kill_signal ∧ d'.th_nbr = d.th_nbr ∧
      d'.argv = none ∧ d'.argc = argvIn.length - 1) := by
  constructor
  · intro hbg hr hf
    subst hbg
    simp only [List.getD_eq_getElem?_getD] at hf
    simp [th_ctrl_data_start, hr, alloc, hf]
  · intro d' st' h
    rcases hr : d.results_str with _ | ⟨id, s⟩
    · cases bg
      · simp [th_ctrl_data_start, hr] at h
        have hd := startRest_oomArgs _ _ _ _ _ _ _ h
        subst hd
        simp
      · rcases halloc : alloc st with ⟨_ | aid, st1⟩
        · simp [th_ctrl_data_start, hr, halloc] at h
        · simp [th_ctrl_data_start, hr, halloc] at h
          have hd := startRest_oomArgs _ _ _ _ _ _ _ h
          subst hd
          simp
    · cases bg
      · simp [th_ctrl_data_start, hr] at h
        have hd := startRest_oomArgs _ _ _ _ _ _ _ h
        subst hd
        simp
      · simp [th_ctrl_data_start, hr] at h
        have hd := startRest_oomArgs _ _ _ _ _ _ _ h
        subst hd
        simp

/-- C1 witness for `data_start_oom_behavior`. -/
theorem data_start_oom_behavior_witness :
    th_ctrl_data_start ⟨[true], 0, []⟩ (idleSlot 1) 7 ["th", "iperf3"] true
      = (StartOutcome.oomBuffer, idleSlot 1, ⟨[true], 1, []⟩) ∧
    ((⟨some (0, ""), none, 1, 0, 1, false, none, false⟩ : ThCtrlData).work_pending
        = (idleSlot 1).work_pending ∧
      (⟨some (0, ""), none, 1, 0, 1, false, none, false⟩ : ThCtrlData).background
        = (idleSlot 1).background ∧
      (⟨some (0, ""), none, 1, 0, 1, false, none, false⟩ : ThCtrlData).cmd_len
        = (idleSlot 1).cmd_len ∧
      (⟨some (0, ""), none, 1, 0, 1, false, none, false⟩ : ThCtrlData).kill_signal
        = (idleSlot 1).kill_signal ∧
      (⟨some (0, ""), none, 1, 0, 1, false, none, false⟩ : ThCtrlData).th_nbr
        = (idleSlot 1).th_nbr ∧
      (⟨some (0, ""), none, 1, 0, 1, false, none, false⟩ : ThCtrlData).argv = none ∧
      (⟨some (0, ""), none, 1, 0, 1, false, none, false⟩ : ThCtrlData).argc
        = (["th", "iperf3"] : List String).length - 1) := by
  exact ⟨(data_start_oom_behavior ⟨[true], 0, []⟩ (idleSlot 1) 7 ["th", "iperf3"] true).1
      rfl rfl rfl,
    (data_start_oom_behavior ⟨[false, false, true], 0, []⟩ (idleSlot 1) 7 ["th", "iperf3"]
        true).2 ⟨some (0, ""), none, 1, 0, 1, false, none, false⟩
      ⟨[false, false, true], 3, [0]⟩ rfl⟩

/-- C5: with a supported job kind, `th_ctrl_start` tries slot 1
whenever slot 1's work is not pending (so slot 1 is always chosen
when both are idle), otherwise slot 2 if slot 2's work is not
pending — in both cases leaving the other slot untouched — and when
both slots' work is pending it reports all-busy and mutates neither
slot nor the heap. -/
theorem start_slot_order (st : AllocState) (d1 d2 : ThCtrlData) (cmdLen : Nat)
    (argvIn : List String) (bg : Bool) (h2 : 2 ≤ argvIn.length)
    (hcmd : argvIn.getD 1 "" = "iperf3") :
    (d1.work_pending = false → ∃ r d1' st',
      th_ctrl_start st d1 d2 cmdLen argvIn bg
        = some (CtrlOutcome.started 1 r, d1', d2, st')) ∧
    (d1.work_pending = true → d2.work_pending = false → ∃ r d2' st',
      th_ctrl_start st d1 d2 cmdLen argvIn bg
        = some (CtrlOutcome.started 2 r, d1, d2', st')) ∧
    (d1.work_pending = true → d2.work_pending = true →
      th_ctrl_start st d1 d2 cmdLen argvIn bg
        = some (CtrlOutcome.allBusy, d1, d2, st)) := by
  have hlen : ¬argvIn.length < 2 := by omega
  have hcmd' : argvIn[1]?.getD "" = "iperf3" := by
    simpa [List.getD_eq_getElem?_getD] using hcmd
  refine ⟨fun h1 => ?_, fun h1 h2' => ?_, fun h1 h2' => ?_⟩
  · rcases he : th_ctrl_data_start st d1 cmdLen argvIn bg with ⟨r, d1', st'⟩
    exact ⟨r, d1', st', by simp [th_ctrl_start, hlen, hcmd', h1, he]⟩
  · rcases he : th_ctrl_data_start st d2 cmdLen argvIn bg with ⟨r, d2', st'⟩
    exact ⟨r, d2', st', by simp [th_ctrl_start, hlen, hcmd', h1, h2', he]⟩
  · simp [th_ctrl_start, hlen, hcmd', h1, h2']

/-- C5 witness for `start_slot_order`. -/
theorem start_slot_order_witness :
    (∃ r d1' st', th_ctrl_start ⟨[], 0, []⟩ (idleSlot 1) (idleSlot 2) 9
        ["th", "iperf3"] true = some (CtrlOutcome.started 1 r, d1', idleSlot 2, st')) ∧
    th_ctrl_start ⟨[], 0, []⟩ (runningSlotNoResults 1) (runningSlotNoResults 2) 9
        ["th", "iperf3"] true
      = some (CtrlOutcome.allBusy, runningSlotNoResults 1, runningSlotNoResults 2,
          ⟨[], 0, []⟩) := by
  exact ⟨(start_slot_order ⟨[], 0, []⟩ (idleSlot 1) (idleSlot 2) 9 ["th", "iperf3"] true
      (by decide) rfl).1 rfl,
    (start_slot_order ⟨[], 0, []⟩ (runningSlotNoResults 1) (runningSlotNoResults 2) 9
      ["th", "iperf3"] true (by decide) rfl).2.2 rfl rfl⟩

/-- C6: `th_ctrl_data_result_print` on a slot holding a non-empty
result string whose work is no longer pending returns the buffered
text, frees the Result Buffer and the Argument Vector, and clears
`results_str`, `argv` and `argc`, so that an immediate second call on
the slot reports no results; on a slot still running it returns the
text and changes nothing (neither slot fields nor heap). -/
theorem result_print_lifecycle (st : AllocState) (d : ThCtrlData) (id : Nat) (s : String)
    (h : d.results_str = some (id, s)) (hs : s ≠ "") :
    (d.work_pending = false →
      th_ctrl_data_result_print st d
        = (ResultOutcome.results s true,
           { d with results_str := none, argc := 0, argv := none },
           (match d.argv with | some v => th_ctrl_util_duplicate_argv_free d.argc v (dealloc id st) | none => dealloc id st)) ∧
      ∀ st2, (th_ctrl_data_result_print st2
          { d with results_str := none, argc := 0, argv := none }).1
        = ResultOutcome.noResults) ∧
    (d.work_pending = true →
      th_ctrl_data_result_print st d = (ResultOutcome.results s false, d, st)) := by
  constructor
  · intro hw
    constructor
    · simp [th_ctrl_data_result_print, h, hs, hw]
    · intro st2
      simp [th_ctrl_data_result_print]
  · intro hw
    simp [th_ctrl_data_result_print, h, hs, hw]

/-- C6 witness for `result_print_lifecycle`. -/
theorem result_print_lifecycle_witness :
    th_ctrl_data_result_print ⟨[], 3, [0, 1, 2]⟩ finishedSlot
      = (ResultOutcome.results "done" true,
         { finishedSlot with results_str := none, argc := 0, argv := none },
         (match finishedSlot.argv with | some v => th_ctrl_util_duplicate_argv_free finishedSlot.argc v (dealloc 0 ⟨[], 3, [0, 1, 2]⟩) | none => dealloc 0 ⟨[], 3, [0, 1, 2]⟩)) ∧
    (th_ctrl_data_result_print ⟨[], 3, [2]⟩
        { finishedSlot with results_str := none, argc := 0, argv := none }).1
      = ResultOutcome.noResults ∧
    th_ctrl_data_result_print ⟨[], 0, []⟩ runningWithResults
      = (ResultOutcome.results "x" false, runningWithResults, ⟨[], 0, []⟩) := by
  exact ⟨((result_print_lifecycle ⟨[], 3, [0, 1, 2]⟩ finishedSlot 0 "done" rfl
      (by decide)).1 rfl).1,
    ((result_print_lifecycle ⟨[], 3, [0, 1, 2]⟩ finishedSlot 0 "done" rfl
      (by decide)).1 rfl).2 ⟨[], 3, [2]⟩,
    (result_print_lifecycle ⟨[], 0, []⟩ runningWithResults 0 "x" rfl (by decide)).2 rfl⟩

/-- C7, counterexample: a slot that is currently running but has no
result buffer is reported by `th_ctrl_data_status_print` as plain
"Nothing" — the report does not say the slot is running, contrary to
the claim that a running slot is always reported as running. -/
theorem status_print_hides_running :
    th_ctrl_data_status_print (runningSlotNoResults 1) = StatusOutcome.nothing ∧
    (runningSlotNoResults 1).work_pending = true := by
  exact ⟨rfl, rfl⟩

/-- C7, amended: `th_ctrl_data_status_print` reports whether results
exist; only when the result buffer exists and is non-empty does the
report also carry whether the slot is running (and the reconstructed
command line) — a slot without results is reported as "Nothing" even
while running.  `th_ctrl_status_print` reports both slots
unconditionally, slot 1 first. -/
theorem status_print_characterization (d1 d2 d : ThCtrlData) :
    th_ctrl_status_print d1 d2
      = (th_ctrl_data_status_print d1, th_ctrl_data_status_print d2) ∧
    (d.results_str = none → th_ctrl_data_status_print d = StatusOutcome.nothing) ∧
    (∀ id s, d.results_str = some (id, s) → s = "" →
      th_ctrl_data_status_print d = StatusOutcome.nothing) ∧
    (∀ id s, d.results_str = some (id, s) → s ≠ "" →
      th_ctrl_data_status_print d
        = StatusOutcome.available d.work_pending
            (th_ctrl_get_command_str_from_argv d.argc (argvStrings d) (d.cmd_len + 1))) := by
  refine ⟨rfl, fun h => ?_, fun id s h hs => ?_, fun id s h hs => ?_⟩
  · simp [th_ctrl_data_status_print, h]
  · simp [th_ctrl_data_status_print, h, hs]
  · simp [th_ctrl_data_status_print, h, hs]

/-- C7 witness for `status_print_characterization`. -/
theorem status_print_characterization_witness :
    th_ctrl_status_print (runningSlotNoResults 1) (idleSlot 2)
      = (th_ctrl_data_status_print (runningSlotNoResults 1),
         th_ctrl_data_status_print (idleSlot 2)) ∧
    th_ctrl_data_status_print (idleSlot 2) = StatusOutcome.nothing ∧
    th_ctrl_data_status_print finishedSlot
      = StatusOutcome.available false
          (th_ctrl_get_command_str_from_argv 1 (argvStrings finishedSlot) 21) := by
  exact ⟨(status_print_characterization (runningSlotNoResults 1) (idleSlot 2)
      (idleSlot 2)).1,
    (status_print_characterization (runningSlotNoResults 1) (idleSlot 2)
      (idleSlot 2)).2.1 rfl,
    (status_print_characterization (runningSlotNoResults 1) (idleSlot 2)
      finishedSlot).2.2.2 0 "done" rfl (by decide)⟩

theorem length_joinSpaced_cons (s : String) (rest : List String) :
    (joinSpaced (s :: rest)).length = s.length + 1 + (joinSpaced rest).length := by
  simp [joinSpaced, String.length_append, show (" " : String).length = 1 from rfl]

theorem getCmdGo_complete (out_buf_len : Nat) (args : List String) :
    ∀ buf : String, buf.length + (joinSpaced args).length ≤ out_buf_len + 1 →
      getCmdGo out_buf_len args buf = buf ++ joinSpaced args := by
  induction args with
  | nil => intro buf _; simp [getCmdGo, joinSpaced, String.append_empty]
  | cons s rest ih =>
    intro buf hb
    rw [length_joinSpaced_cons] at hb
    have hfit : ¬buf.length + s.length > out_buf_len := by omega
    have hrec := ih (buf ++ s ++ " ")
      (by simp only [String.length_append, show (" " : String).length = 1 from rfl]; omega)
    simp only [getCmdGo, if_neg hfit, joinSpaced, ← String.append_assoc]
    exact hrec

/-- C8, counterexample: start records `cmd_len` from the shell
context; with a recorded command length of 0, a successful background
start of `["th", "iperf3"]` (stored vector `["iperf3"]`) followed by
the job writing `"x"` yields a status whose reconstructed command
line is `""` — the argument `"iperf3"` is dropped entirely, so the
reconstruction does not equal the started arguments joined by
whitespace. -/
theorem command_str_truncates :
    (th_ctrl_data_start ⟨[], 0, []⟩ (idleSlot 1) 0 ["th", "iperf3"] true).1
      = StartOutcome.ok ∧
    th_ctrl_data_status_print
        (writeResults
          (th_ctrl_data_start ⟨[], 0, []⟩ (idleSlot 1) 0 ["th", "iperf3"] true).2.1 "x")
      = StatusOutcome.available true "" ∧
    ("" : String) ≠ "iperf3" := by
  exact ⟨rfl, rfl, by decide⟩

/-- C8, amended: for a successful background start whose recorded
command length bound covers the stored arguments (the length of the
arguments joined with a trailing space after each is at most
`cmd_len + 2`, as it is when `cmd_len` is the full typed command
line), the command line reconstructed by the status report while
results are unconsumed is exactly the stored arguments (the caller's
list without its first token) each followed by a single space, in
order — every argument recoverable, none dropped — i.e. the
arguments joined by single spaces plus one trailing space; with a
smaller recorded length a suffix of the arguments is dropped. -/
theorem command_str_round_trip (st : AllocState) (d : ThCtrlData) (cmdLen : Nat)
    (argvIn : List String) (out : String) (hf : st.fails = [])
    (hlen : (joinSpaced (argvIn.drop 1)).length ≤ cmdLen + 2) (hout : out ≠ "") :
    ∃ d' st', th_ctrl_data_start st d cmdLen argvIn true = (StartOutcome.ok, d', st') ∧
      th_ctrl_data_status_print (writeResults d' out)
        = StatusOutcome.available true (joinSpaced (argvIn.drop 1)) := by
  obtain ⟨d', st', heq, hargc, hargv, hbg, hcl, hwp, hks, hnbr, hfs, hbgres, _⟩ :=
    data_start_of_fails_nil st d cmdLen argvIn true hf
  obtain ⟨idb, hres⟩ := hbgres rfl
  refine ⟨d', st', heq, ?_⟩
  have hw : writeResults d' out = { d' with results_str := some (idb, out) } := by
    simp [writeResults, hres]
  have hav : argvStrings { d' with results_str := some (idb, out) } = argvStrings d' := rfl
  rw [hw]
  simp only [th_ctrl_data_status_print, if_neg hout, hav, hargv]
  have htake : (argvIn.drop 1).take ({ d' with results_str := some (idb, out) }.argc)
      = argvIn.drop 1 := by
    simp [hargc, List.length_drop]
  rw [show ({ d' with results_str := some (idb, out) } : ThCtrlData).work_pending
      = d'.work_pending from rfl, hwp]
  unfold th_ctrl_get_command_str_from_argv
  rw [show ({ d' with results_str := some (idb, out) } : ThCtrlData).cmd_len
      = d'.cmd_len from rfl, hcl, htake,
    getCmdGo_complete (cmdLen + 1) (argvIn.drop 1) "" (by simpa using hlen),
    String.empty_append]

/-- C8 witness for `command_str_round_trip`. -/
theorem command_str_round_trip_witness :
    ∃ d' st', th_ctrl_data_start ⟨[], 0, []⟩ (idleSlot 1) 30
        ["th", "iperf3", "-c", "host"] true = (StartOutcome.ok, d', st') ∧
      th_ctrl_data_status_print (writeResults d' "x")
        = StatusOutcome.available true
            (joinSpaced ((["th", "iperf3", "-c", "host"] : List String).drop 1)) := by
  exact command_str_round_trip ⟨[], 0, []⟩ (idleSlot 1) 30 ["th", "iperf3", "-c", "host"]
    "x" rfl (by decide) (by decide)

/-- C10: `th_ctrl_start` reads the caller's element at index 1
unconditionally, so a caller list of length at least 2 is a hard
precondition (the embedded function is defined exactly on such
lists); and every successful start stores exactly the caller's
elements at indices 1 through n−1, in order, with the slot's
argument count recorded as n−1 — the first token is dropped, and
status/result reconstruction (via `argvStrings`) operates on this
stripped vector. -/
theorem start_strips_first_token (st : AllocState) (d1 d2 : ThCtrlData) (cmdLen : Nat)
    (argvIn : List String) (bg : Bool) :
    ((th_ctrl_start st d1 d2 cmdLen argvIn bg).isSome ↔ 2 ≤ argvIn.length) ∧
    (st.fails = [] → 2 ≤ argvIn.length → argvIn.getD 1 "" = "iperf3" →
      d1.work_pending = false →
      ∃ d1' st', th_ctrl_start st d1 d2 cmdLen argvIn bg
          = some (CtrlOutcome.started 1 StartOutcome.ok, d1', d2, st') ∧
        argvStrings d1' = argvIn.drop 1 ∧ d1'.argc = argvIn.length - 1) := by
  constructor
  · rcases he1 : th_ctrl_data_start st d1 cmdLen argvIn bg with ⟨r1, d1', st1⟩
    rcases he2 : th_ctrl_data_start st d2 cmdLen argvIn bg with ⟨r2, d2', st2⟩
    by_cases hl : argvIn.length < 2
    · simp [th_ctrl_start, hl]
    · have h2 : 2 ≤ argvIn.length := by omega
      simp only [th_ctrl_start, if_neg hl, he1, he2, h2, iff_true]
      split_ifs <;> simp
  · intro hf h2 hcmd hw
    have hlen : ¬argvIn.length < 2 := by omega
    have hcmd' : argvIn[1]?.getD "" = "iperf3" := by
      simpa [List.getD_eq_getElem?_getD] using hcmd
    obtain ⟨d1', st', heq, hargc, hargv, _, _, _, _, _, _, _, _⟩ :=
      data_start_of_fails_nil st d1 cmdLen argvIn bg hf
    exact ⟨d1', st', by simp [th_ctrl_start, hlen, hcmd', hw, heq], hargv, hargc⟩

/-- C10 witness for `start_strips_first_token`. -/
theorem start_strips_first_token_witness :
    ((th_ctrl_start ⟨[], 0, []⟩ (idleSlot 1) (idleSlot 2) 9 ["th", "iperf3", "-v"]
        true).isSome ↔ 2 ≤ (["th", "iperf3", "-v"] : List String).length) ∧
    (∃ d1' st', th_ctrl_start ⟨[], 0, []⟩ (idleSlot 1) (idleSlot 2) 9
        ["th", "iperf3", "-v"] true
        = some (CtrlOutcome.started 1 StartOutcome.ok, d1', idleSlot 2, st') ∧
      argvStrings d1' = ["iperf3", "-v"] ∧
      d1'.argc = (["th", "iperf3", "-v"] : List String).length - 1) := by
  exact ⟨(start_strips_first_token ⟨[], 0, []⟩ (idleSlot 1) (idleSlot 2) 9
      ["th", "iperf3", "-v"] true).1,
    (start_strips_first_token ⟨[], 0, []⟩ (idleSlot 1) (idleSlot 2) 9
      ["th", "iperf3", "-v"] true).2 rfl (by decide) rfl rfl⟩

end ThCtrl
